import Mathlib

/-! Verification development for the interactive layer of a personal portfolio
website (`script.js`).  The script's components — a throttle utility, a
parallax-effect class, a scroll-triggered animation observer, navigation
active-link tracking, a theme/background toggle and a project modal — are
shallowly embedded below as pure functions over explicit state records, and
the documented properties are proved (or refuted) about these embeddings. -/

namespace Script

/-! Throttle utility (`throttle(func, limit)` in the source).  The closure
keeps a flag `inThrottle`: a call runs `func` only when the flag is clear,
then sets it and schedules a timer that clears it `limit` milliseconds later.
We embed the closure state as the pending timer's expiry time (`none` before
the first call): a call at time `t` executes iff no window is open or the
open window's expiry `e` satisfies `e ≤ t`; executing opens a window ending
at `t + limit`; dropped calls leave the state untouched. -/

/-- State of one throttled closure and the outcome of a call at time `t`:
the new state paired with whether `func` executed. -/
def throttleStep (limit : Nat) (s : Option Nat) (t : Nat) : Option Nat × Bool :=
  match s with
  | none => (some (t + limit), true)
  | some e => if e ≤ t then (some (t + limit), true) else (some e, false)

/-- Run a throttled closure over a timestamped call sequence, recording for
each call whether the wrapped callback executed. -/
def throttleRun (limit : Nat) : Option Nat → List Nat → List Bool
  | _, [] => []
  | s, t :: rest =>
    let r := throttleStep limit s t
    r.2 :: throttleRun limit r.1 rest

/-- A fresh throttled closure (`inThrottle` unset) applied to a call
sequence, as produced by `throttle(func, limit)`. -/
def throttle (limit : Nat) (ts : List Nat) : List Bool :=
  throttleRun limit none ts

/-! Parallax effect (`class ParallaxEffect`).  The constructor queries
`.hero-background`, stores `speed = 0.5`, and calls `init()`, which writes
`this.element.style.willChange` — a null dereference (TypeError) when the
query found no element.  We embed the element as an optional style record
and the constructor as a fallible computation. -/

/-- Mutable style state of the `.hero-background` element. -/
structure HeroElem where
  willChange : String
  transform : String
deriving DecidableEq, Repr

/-- A successfully constructed parallax controller. -/
structure ParallaxEffect where
  element : HeroElem
  speed : ℚ
deriving DecidableEq, Repr

/-- Embeds the `ParallaxEffect` constructor: `document.querySelector` yields
`some el` or `none`; `init()` then sets `will-change: transform` on the
element, throwing when the element is `null`. -/
def ParallaxEffect.construct (heroBackground : Option HeroElem) :
    Except String ParallaxEffect :=
  match heroBackground with
  | none => .error "TypeError: Cannot set properties of null (setting willChange)"
  | some el => .ok { element := { el with willChange := "transform" }, speed := 1/2 }

/-! Theme/background toggle (`toggleHeroBackground`) and the page-load
aria sync.  The page state carries presence of the two queried elements,
the two background variant classes (`simple-bg`, `simple-bg-alt`), the
toggle button's `aria-pressed` attribute, and the browser's local storage
as a key/value list (the source never touches `localStorage`; the field is
carried so that claims about persistence can be stated). -/

/-- DOM-and-storage state relevant to the theme/background toggle. -/
structure PageState where
  bgPresent : Bool
  btnPresent : Bool
  simpleBg : Bool
  simpleBgAlt : Bool
  pressed : Bool
  localStorage : List (String × String)
deriving DecidableEq, Repr

/-- The three theme modes named by the documentation. -/
inductive Mode where
  | dark
  | light
  | modern
deriving DecidableEq, Repr

/-- Mode encoded by the background element's class flags: no variant class
is `dark`, `simple-bg` is `light`, `simple-bg-alt` is `modern`. -/
def bgMode (s : PageState) : Mode :=
  if s.simpleBgAlt then .modern else if s.simpleBg then .light else .dark

/-- Exactly one of the three mode flag-sets is present: never both variant
classes at once. -/
def exactlyOne (s : PageState) : Prop :=
  (s.simpleBg = false ∧ s.simpleBgAlt = false) ∨
  (s.simpleBg = true ∧ s.simpleBgAlt = false) ∨
  (s.simpleBg = false ∧ s.simpleBgAlt = true)

instance (s : PageState) : Decidable (exactlyOne s) := by
  unfold exactlyOne; infer_instance

/-- Embeds `toggleHeroBackground()`: returns unchanged when either queried
element is missing; otherwise cycles `simple-bg-alt` → none,
`simple-bg` → `simple-bg-alt`, none → `simple-bg`, updating `aria-pressed`.
The source writes nothing to local storage. -/
def toggleHeroBackground (s : PageState) : PageState :=
  if !s.bgPresent || !s.btnPresent then s
  else if s.simpleBgAlt then { s with simpleBgAlt := false, pressed := false }
  else if s.simpleBg then { s with simpleBg := false, simpleBgAlt := true, pressed := true }
  else { s with simpleBg := true, pressed := true }

/-- Embeds the `DOMContentLoaded` block that syncs the toggle button's
`aria-pressed` attribute to whichever background classes are present; it
reads nothing from local storage. -/
def initialAriaSync (s : PageState) : PageState :=
  if s.bgPresent && s.btnPresent then
    { s with pressed := s.simpleBg || s.simpleBgAlt }
  else s

/-- The default page state: both elements present, no variant class (dark),
`aria-pressed` false, empty local storage. -/
def pageDefault : PageState :=
  { bgPresent := true, btnPresent := true, simpleBg := false,
    simpleBgAlt := false, pressed := false, localStorage := [] }

/-! Navigation active-link tracking (`NavigationEffects.updateActiveLink`).
Sections are (id, offsetTop) pairs in document order; the handler scans
them, overwriting `current` whenever `pageYOffset >= sectionTop - 200`,
then marks exactly the links whose href target equals `current`. -/

/-- Whether the scroll offset has passed a section's activation threshold
(`pageYOffset >= sectionTop - 200`). -/
def passes (scroll : Int) (sec : String × Int) : Bool :=
  decide (scroll ≥ sec.2 - 200)

/-- The `current` variable after the scan: sections are visited in document
order and each passing section overwrites the value (initially `""`). -/
def currentSection (sections : List (String × Int)) (scroll : Int) : String :=
  sections.foldl (fun cur sec => if passes scroll sec then sec.1 else cur) ""

/-- The id of the last section in document order whose threshold the scroll
offset has passed (`""` when none has) — the documentation's description
of the active section. -/
def lastPassing (sections : List (String × Int)) (scroll : Int) : String :=
  ((sections.filter (passes scroll)).map Prod.fst).getLastD ""

/-- Embeds `updateActiveLink`: every link's `active` class is removed and
then re-added exactly when its href target equals `current`.  Links are
(target, hadActive) pairs; the result records the new `active` state. -/
def updateActiveLink (sections : List (String × Int)) (scroll : Int)
    (links : List (String × Bool)) : List (String × Bool) :=
  let current := currentSection sections scroll
  links.map (fun l => (l.1, l.1 == current))

/-! Scroll-triggered animations (`class ScrollAnimations`).  An
IntersectionObserver is created with threshold 0.1 and rootMargin
`0px 0px -100px 0px`, observing every `.skill-card, .project-card`
element.  Its callback, for each intersecting entry, sets the entry
target's animation style and unobserves the target.  The observer
delivers entries only for currently observed targets, so the embedding
guards each entry by membership in the observed set; `count` records how
often an element's animation was applied. -/

/-- The observer's configured intersection threshold (10% visible). -/
def observerThreshold : ℚ := 1/10

/-- The observer's configured bottom root margin in pixels. -/
def observerRootMarginBottom : Int := -100

/-- The animation style the callback applies. -/
def slideInUpAnimation : String := "slideInUp 0.6s ease-out forwards"

/-- Observer state: the set of observed elements, each element's animation
style, and how many times each element's animation has been applied. -/
structure SAState where
  observed : List String
  animation : String → Option String
  count : String → Nat

/-- Embeds the observer callback's handling of one entry
(target, isIntersecting): an intersecting entry for an observed target
receives the animation style and is unobserved; anything else is ignored. -/
def saHandleEntry (s : SAState) (entry : String × Bool) : SAState :=
  if entry.2 = true ∧ entry.1 ∈ s.observed then
    { observed := s.observed.filter (fun x => x != entry.1),
      animation := fun x => if x = entry.1 then some slideInUpAnimation else s.animation x,
      count := fun x => if x = entry.1 then s.count x + 1 else s.count x }
  else s

/-- Deliver a sequence of intersection entries to the callback. -/
def saRun (s : SAState) (entries : List (String × Bool)) : SAState :=
  entries.foldl saHandleEntry s

/-- Initial observer state from `ScrollAnimations.init`: every queried card
element is observed, nothing is animated. -/
def saInit (elems : List String) : SAState :=
  { observed := elems, animation := fun _ => none, count := fun _ => 0 }

/-! Project modal (`openModal`).  The modal's display slots are embedded as
a record; `openModal` writes the hardcoded descriptor of `project1`,
`project2` or `project3` into title, description, tech and features, writes
nothing for other identifiers, and always sets the modal's display to
`block`.  The external-link slot present in the markup is never written by
the source. -/

/-- Content of the modal's display slots plus its display style. -/
structure ModalState where
  title : String
  description : String
  tech : String
  features : String
  github : String
  display : String
deriving DecidableEq, Repr

/-- Embeds `openModal(project)`: three hardcoded descriptor branches, then
`modal.style.display = 'block'` unconditionally. -/
def openModal (project : String) (m : ModalState) : ModalState :=
  let m1 :=
    if project = "project1" then
      { m with
        title := "E-Commerce Platform",
        description := "A comprehensive full-stack e-commerce application designed to provide a seamless online shopping experience. The platform integrates secure payment processing, real-time inventory tracking, and user-friendly admin dashboards for efficient management.",
        tech := "<li>Frontend: React, HTML, CSS</li><li>Backend: Node.js, Express</li><li>Database: MongoDB</li><li>Payment: Stripe API</li>",
        features := "<li>User authentication and profiles</li><li>Product catalog with search and filters</li><li>Shopping cart and checkout process</li><li>Order tracking and history</li><li>Admin panel for inventory management</li>" }
    else if project = "project2" then
      { m with
        title := "Analytics Dashboard",
        description := "An interactive data visualization dashboard that transforms complex datasets into actionable insights. Built for real-time monitoring and customizable reporting across various business metrics.",
        tech := "<li>Frontend: D3.js, Chart.js</li><li>Backend: Python, Flask</li><li>Database: PostgreSQL</li><li>Data Processing: Pandas, NumPy</li>",
        features := "<li>Real-time data updates</li><li>Customizable chart types</li><li>Export functionality (PDF, CSV)</li><li>User role-based access</li><li>Responsive design for mobile devices</li>" }
    else if project = "project3" then
      { m with
        title := "Mobile App Suite",
        description := "A suite of cross-platform mobile applications developed for iOS and Android. These apps provide essential tools for productivity, communication, and entertainment with native performance.",
        tech := "<li>Framework: React Native</li><li>Languages: JavaScript, TypeScript</li><li>Backend: Firebase</li><li>APIs: RESTful, GraphQL</li>",
        features := "<li>Cross-platform compatibility</li><li>Offline functionality</li><li>Push notifications</li><li>In-app purchases</li><li>Integration with device features (camera, GPS)</li>" }
    else m
  { m1 with display := "block" }

/-! Theorems. -/

/-- C1 counterexample: one toggle transition from the default (dark) state
puts the background into light mode, yet nothing was written to local
storage — the `pageTheme` key does not hold the new mode name `light`
(local storage is still empty), contrary to the claim that every toggle
transition persists the new mode. -/
theorem toggleHeroBackground_writes_no_storage :
    bgMode (toggleHeroBackground pageDefault) = Mode.light ∧
    (toggleHeroBackground pageDefault).localStorage = [] ∧
    ¬ ((toggleHeroBackground pageDefault).localStorage.lookup "pageTheme" = some "light") := by
  refine ⟨rfl, rfl, ?_⟩
  simp [toggleHeroBackground, pageDefault, List.lookup]

/-- C1 amended: the toggle never touches local storage (so after any number
of toggles the stored value is whatever it was before, in particular never a
mode name written by the script), the page-load handler reads nothing from
storage either, and when both elements are present it infers the pressed
state from the background classes already in the markup. -/
theorem toggleHeroBackground_storage_unchanged (s : PageState) (n : Nat)
    (hbg : s.bgPresent = true) (hbtn : s.btnPresent = true) :
    ((toggleHeroBackground^[n]) s).localStorage = s.localStorage ∧
    (initialAriaSync s).localStorage = s.localStorage ∧
    (initialAriaSync s).pressed = (s.simpleBg || s.simpleBgAlt) := by
  refine ⟨?_, ?_, ?_⟩
  · induction n with
    | zero => rfl
    | succ k ih =>
      rw [Function.iterate_succ_apply']
      have h : ∀ t : PageState, (toggleHeroBackground t).localStorage = t.localStorage := by
        intro t
        unfold toggleHeroBackground
        split <;> [rfl; skip]
        split <;> [rfl; skip]
        split <;> rfl
      rw [h, ih]
  · unfold initialAriaSync
    split <;> rfl
  · unfold initialAriaSync
    rw [hbg, hbtn]
    rfl

/-- C1 amended witness: instantiated at the default state and three
toggles. -/
theorem toggleHeroBackground_storage_unchanged_witness :
    ((toggleHeroBackground^[3]) pageDefault).localStorage = pageDefault.localStorage ∧
    (initialAriaSync pageDefault).pressed = (pageDefault.simpleBg || pageDefault.simpleBgAlt) := by
  have h := toggleHeroBackground_storage_unchanged pageDefault 3 rfl rfl
  exact ⟨h.1, h.2.2⟩

/-- C2 counterexample: the external-link display slot is not populated with
fixed content when the modal opens with `project2` — it retains whatever
the two differing prior states held, so no hardcoded link is written. -/
theorem openModal_project2_link_slot_untouched :
    (openModal "project2"
      { title := "t", description := "d", tech := "te", features := "f",
        github := "stale-link-A", display := "none" }).github = "stale-link-A" ∧
    (openModal "project2"
      { title := "t", description := "d", tech := "te", features := "f",
        github := "stale-link-B", display := "none" }).github = "stale-link-B" :=
  ⟨rfl, rfl⟩

/-- C2 amended: opening with `project2` populates the four display slots the
source writes — title, description, technology list and feature list — with
that project's fixed hardcoded content, leaves the external-link slot
untouched, and reveals the modal as a block-level overlay. -/
theorem openModal_project2_populates_four_slots (m : ModalState) :
    openModal "project2" m =
      { m with
        title := "Analytics Dashboard",
        description := "An interactive data visualization dashboard that transforms complex datasets into actionable insights. Built for real-time monitoring and customizable reporting across various business metrics.",
        tech := "<li>Frontend: D3.js, Chart.js</li><li>Backend: Python, Flask</li><li>Database: PostgreSQL</li><li>Data Processing: Pandas, NumPy</li>",
        features := "<li>Real-time data updates</li><li>Customizable chart types</li><li>Export functionality (PDF, CSV)</li><li>User role-based access</li><li>Responsive design for mobile devices</li>",
        display := "block" } := by
  unfold openModal
  simp

/-- C3 counterexample: with the `.hero-background` element absent,
constructing `ParallaxEffect` does not proceed without error — it throws a
TypeError while `init()` dereferences the missing element. -/
theorem parallaxEffect_construct_none_errors :
    ParallaxEffect.construct none =
      Except.error "TypeError: Cannot set properties of null (setting willChange)" :=
  rfl

/-- C3 amended: constructing `ParallaxEffect` succeeds exactly when the
parallax target element is present; when it is absent the constructor
itself fails (the `init()` call inside it dereferences the missing
element), so the failure happens at construction, not only in later
scroll-driven updates. -/
theorem parallaxEffect_construct_ok_iff_present (heroBackground : Option HeroElem) :
    (ParallaxEffect.construct heroBackground).isOk = heroBackground.isSome := by
  cases heroBackground <;> rfl

/-- C4: on states with both elements present and exactly one mode flag-set
active, the toggle advances dark to light, light to modern, modern to dark,
and three successive toggles restore the starting mode. -/
theorem toggleHeroBackground_cycle (s : PageState)
    (hbg : s.bgPresent = true) (hbtn : s.btnPresent = true)
    (hone : exactlyOne s) :
    (bgMode s = Mode.dark → bgMode (toggleHeroBackground s) = Mode.light) ∧
    (bgMode s = Mode.light → bgMode (toggleHeroBackground s) = Mode.modern) ∧
    (bgMode s = Mode.modern → bgMode (toggleHeroBackground s) = Mode.dark) ∧
    bgMode (toggleHeroBackground (toggleHeroBackground (toggleHeroBackground s))) = bgMode s := by
  obtain ⟨bgP, btnP, sb, sba, pr, st⟩ := s
  simp only at hbg hbtn
  subst hbg hbtn
  rcases hone with ⟨h1, h2⟩ | ⟨h1, h2⟩ | ⟨h1, h2⟩ <;>
    simp only at h1 h2 <;> subst h1 <;> subst h2 <;>
    simp [toggleHeroBackground, bgMode]

/-- C4 witness: instantiated at the default (dark) state. -/
theorem toggleHeroBackground_cycle_witness :
    bgMode (toggleHeroBackground (toggleHeroBackground (toggleHeroBackground pageDefault))) =
      bgMode pageDefault :=
  (toggleHeroBackground_cycle pageDefault rfl rfl (Or.inl ⟨rfl, rfl⟩)).2.2.2

/-- C5: the toggle preserves the invariant that exactly one of the three
mode flag-sets is active (never both variant classes at once), from any
state satisfying it. -/
theorem toggleHeroBackground_preserves_exactlyOne (s : PageState)
    (hone : exactlyOne s) : exactlyOne (toggleHeroBackground s) := by
  obtain ⟨bgP, btnP, sb, sba, pr, st⟩ := s
  rcases hone with ⟨h1, h2⟩ | ⟨h1, h2⟩ | ⟨h1, h2⟩ <;>
    simp only at h1 h2 <;> subst h1 <;> subst h2 <;>
    cases bgP <;> cases btnP <;>
    simp [toggleHeroBackground, exactlyOne]

/-- C5 witness: instantiated at the default (dark) state. -/
theorem toggleHeroBackground_preserves_exactlyOne_witness :
    exactlyOne (toggleHeroBackground pageDefault) :=
  toggleHeroBackground_preserves_exactlyOne pageDefault (Or.inl ⟨rfl, rfl⟩)

/-- Helper: while a window ending at `e` is open, every call strictly before
`e` is dropped and leaves the window as it is. -/
theorem throttleRun_all_dropped (limit e : Nat) :
    ∀ ts : List Nat, (∀ u ∈ ts, u < e) →
      throttleRun limit (some e) ts = ts.map (fun _ => false) := by
  intro ts
  induction ts with
  | nil => intro _; rfl
  | cons u rest ih =>
    intro h
    have hu : u < e := h u (List.mem_cons_self u rest)
    have hrest : ∀ v ∈ rest, v < e := fun v hv => h v (List.mem_cons_of_mem u hv)
    simp [throttleRun, throttleStep, Nat.not_le.mpr hu, ih hrest]

/-- Helper: after an execution at time `t`, calls each spaced more than
`limit` after their predecessor all execute. -/
theorem throttleRun_all_spaced (limit : Nat) :
    ∀ (rest : List Nat) (t : Nat),
      List.Chain (fun a b => a + limit < b) t rest →
      throttleRun limit (some (t + limit)) rest = rest.map (fun _ => true) := by
  intro rest
  induction rest with
  | nil => intro _ _; rfl
  | cons u rest' ih =>
    intro t h
    rw [List.chain_cons] at h
    have hu : t + limit ≤ u := Nat.le_of_lt h.1
    simp [throttleRun, throttleStep, hu, ih u h.2]

/-- C6: a burst of calls all inside the window opened by the first call
executes the callback exactly once (the first call), and calls each spaced
more than `limit` milliseconds after their predecessor all execute. -/
theorem throttle_window_spec (limit t : Nat) (rest : List Nat) :
    ((∀ u ∈ rest, u < t + limit) →
      throttle limit (t :: rest) = true :: rest.map (fun _ => false)) ∧
    (List.Chain (fun a b => a + limit < b) t rest →
      throttle limit (t :: rest) = (t :: rest).map (fun _ => true)) := by
  constructor
  · intro h
    simp [throttle, throttleRun, throttleStep, throttleRun_all_dropped limit (t + limit) rest h]
  · intro h
    simp [throttle, throttleRun, throttleStep, throttleRun_all_spaced limit rest t h]

/-- C6 witness: with `limit = 100`, the burst `[0, 50, 99]` executes only
its first call, and the spaced sequence `[0, 101, 202]` executes every
call. -/
theorem throttle_window_spec_witness :
    throttle 100 [0, 50, 99] = [true, false, false] ∧
    throttle 100 [0, 101, 202] = [true, true, true] := by
  constructor
  · have h := (throttle_window_spec 100 0 [50, 99]).1 (by decide)
    simpa using h
  · have h := (throttle_window_spec 100 0 [101, 202]).2
      (List.Chain.cons (by decide) (List.Chain.cons (by decide) List.Chain.nil))
    simpa using h

/-- Helper: a left fold that overwrites its accumulator at every element
satisfying `p` yields the image of the last satisfying element (or the
initial accumulator when none satisfies). -/
theorem foldl_overwrite_eq_getLastD {α β : Type} (p : α → Bool) (f : α → β) :
    ∀ (l : List α) (a : β),
      l.foldl (fun cur x => if p x then f x else cur) a =
        ((l.filter p).map f).getLastD a := by
  intro l
  induction l with
  | nil => intro a; rfl
  | cons x xs ih =>
    intro a
    by_cases h : p x = true
    · rw [List.filter_cons_of_pos h, List.map_cons, List.getLastD_cons, List.foldl_cons,
        if_pos h]
      exact ih (f x)
    · rw [List.filter_cons_of_neg (by simpa using h), List.foldl_cons, if_neg h]
      exact ih a

/-- C7: the scan's `current` value is the last section in document order
whose threshold (`sectionTop − 200`) the scroll offset has passed; the
resync marks exactly the links whose target equals that id; and on sections
with top offsets `[0, 800, 1600]` at scroll offset `850`, the section at
`800` is the active one. -/
theorem updateActiveLink_spec (sections : List (String × Int)) (scroll : Int)
    (links : List (String × Bool)) :
    currentSection sections scroll = lastPassing sections scroll ∧
    updateActiveLink sections scroll links =
      links.map (fun l => (l.1, l.1 == lastPassing sections scroll)) ∧
    currentSection [("home", 0), ("about", 800), ("projects", 1600)] 850 = "about" := by
  have hmain : ∀ (secs : List (String × Int)) (sc : Int),
      currentSection secs sc = lastPassing secs sc := by
    intro secs sc
    unfold currentSection lastPassing
    exact foldl_overwrite_eq_getLastD (passes sc) Prod.fst secs ""
  refine ⟨hmain sections scroll, ?_, by decide⟩
  unfold updateActiveLink
  rw [hmain sections scroll]

/-- C10: when the scroll offset has passed no section's threshold and no
nav link targets the empty id, the resync leaves every nav link without the
active marker. -/
theorem updateActiveLink_no_section_no_active (sections : List (String × Int))
    (scroll : Int) (links : List (String × Bool))
    (hnone : ∀ sec ∈ sections, ¬ (scroll ≥ sec.2 - 200))
    (hlinks : ∀ l ∈ links, l.1 ≠ "") :
    ∀ pr ∈ updateActiveLink sections scroll links, pr.2 = false := by
  have hfilter : sections.filter (passes scroll) = [] := by
    rw [List.filter_eq_nil_iff]
    intro sec hsec
    have h2 := hnone sec hsec
    simp only [passes, decide_eq_true_eq]
    omega
  have hcur : currentSection sections scroll = "" := by
    unfold currentSection
    rw [foldl_overwrite_eq_getLastD (passes scroll) Prod.fst sections "", hfilter]
    rfl
  intro pr hpr
  unfold updateActiveLink at hpr
  rw [hcur] at hpr
  rcases List.mem_map.mp hpr with ⟨l, hl, heq⟩
  have : pr.2 = (l.1 == "") := by rw [← heq]
  rw [this]
  exact beq_eq_false_iff_ne.mpr (hlinks l hl)

/-- C10 witness: the page at the top with the only section starting 300
pixels down and one previously active link, which comes out inactive. -/
theorem updateActiveLink_no_section_no_active_witness :
    ("about", false) ∈ updateActiveLink [("about", 300)] 0 [("about", true)] ∧
    (("about", false) : String × Bool).2 = false :=
  ⟨by decide,
   updateActiveLink_no_section_no_active [("about", 300)] 0 [("about", true)]
     (by decide) (by decide) ("about", false) (by decide)⟩

/-- Helper: the observer invariant — an observed element's animation has
never been applied, and no element's animation has been applied more than
once. -/
def saInv (s : SAState) : Prop :=
  ∀ x : String, (x ∈ s.observed → s.count x = 0) ∧ s.count x ≤ 1

/-- Helper: handling one entry preserves the observer invariant. -/
theorem saHandleEntry_inv (s : SAState) (entry : String × Bool)
    (h : saInv s) : saInv (saHandleEntry s entry) := by
  unfold saHandleEntry
  split
  · rename_i hcond
    intro x
    dsimp only
    constructor
    · intro hx
      simp only [List.mem_filter, bne_iff_ne, ne_eq] at hx
      rw [if_neg hx.2]
      exact (h x).1 hx.1
    · by_cases hx : x = entry.1
      · rw [if_pos hx]
        have h0 : s.count x = 0 := (h x).1 (by rw [hx]; exact hcond.2)
        omega
      · rw [if_neg hx]
        exact (h x).2
  · exact h

/-- Helper: delivering any entry sequence preserves the observer
invariant. -/
theorem saRun_inv (entries : List (String × Bool)) :
    ∀ s : SAState, saInv s → saInv (saRun s entries) := by
  induction entries with
  | nil => intro s h; exact h
  | cons e rest ih =>
    intro s h
    exact ih (saHandleEntry s e) (saHandleEntry_inv s e h)

/-- Helper: once an element is unobserved with its animation applied once,
no further entry — intersecting or not — can change that: the observer
never delivers entries for unobserved targets. -/
theorem saHandleEntry_done_preserved (x : String) (s : SAState)
    (entry : String × Bool) (hobs : x ∉ s.observed)
    (hanim : s.animation x = some slideInUpAnimation) (hcount : s.count x = 1) :
    x ∉ (saHandleEntry s entry).observed ∧
    (saHandleEntry s entry).animation x = some slideInUpAnimation ∧
    (saHandleEntry s entry).count x = 1 := by
  by_cases hcond : entry.2 = true ∧ entry.1 ∈ s.observed
  · have hne : ¬ x = entry.1 := fun hx => hobs (by rw [hx]; exact hcond.2)
    unfold saHandleEntry
    rw [if_pos hcond]
    dsimp only
    refine ⟨?_, ?_, ?_⟩
    · intro hx
      exact hobs (List.mem_of_mem_filter hx)
    · rw [if_neg hne]; exact hanim
    · rw [if_neg hne]; exact hcount
  · unfold saHandleEntry
    rw [if_neg hcond]
    exact ⟨hobs, hanim, hcount⟩

/-- Helper: the animated-and-unobserved state of an element persists over
any further entry sequence. -/
theorem saRun_done_preserved (x : String) :
    ∀ (entries : List (String × Bool)) (s : SAState),
      x ∉ s.observed → s.animation x = some slideInUpAnimation → s.count x = 1 →
      x ∉ (saRun s entries).observed ∧
      (saRun s entries).animation x = some slideInUpAnimation ∧
      (saRun s entries).count x = 1 := by
  intro entries
  induction entries with
  | nil => intro s h1 h2 h3; exact ⟨h1, h2, h3⟩
  | cons e rest ih =>
    intro s h1 h2 h3
    have hstep := saHandleEntry_done_preserved x s e h1 h2 h3
    exact ih (saHandleEntry s e) hstep.1 hstep.2.1 hstep.2.2

/-- Helper: an element that is observed and unanimated, and for which an
intersecting entry occurs somewhere in the sequence, ends with its
animation applied exactly once and itself unobserved. -/
theorem saRun_applies (x : String) :
    ∀ (entries : List (String × Bool)) (s : SAState),
      x ∈ s.observed → s.count x = 0 → (x, true) ∈ entries →
      (saRun s entries).count x = 1 ∧
      (saRun s entries).animation x = some slideInUpAnimation ∧
      x ∉ (saRun s entries).observed := by
  intro entries
  induction entries with
  | nil => intro s _ _ hmem; exact absurd hmem (List.not_mem_nil _)
  | cons e rest ih =>
    intro s hobs hcount hmem
    by_cases he : e = (x, true)
    · subst he
      have hfacts : (saHandleEntry s (x, true)).count x = 1 ∧
          (saHandleEntry s (x, true)).animation x = some slideInUpAnimation ∧
          x ∉ (saHandleEntry s (x, true)).observed := by
        refine ⟨?_, ?_, ?_⟩ <;> simp [saHandleEntry, hobs, hcount]
      have hd := saRun_done_preserved x rest (saHandleEntry s (x, true))
        hfacts.2.2 hfacts.2.1 hfacts.1
      exact ⟨hd.2.2, hd.2.1, hd.1⟩
    · have hmem' : (x, true) ∈ rest := by
        rcases List.mem_cons.mp hmem with h | h
        · exact absurd h.symm he
        · exact h
      have hQ : x ∈ (saHandleEntry s e).observed ∧ (saHandleEntry s e).count x = 0 := by
        by_cases hcond : e.2 = true ∧ e.1 ∈ s.observed
        · have hne : ¬ x = e.1 := by
            intro hx
            apply he
            have hpair : e = (e.1, e.2) := rfl
            rw [hpair, hcond.1, ← hx]
          unfold saHandleEntry
          rw [if_pos hcond]
          dsimp only
          constructor
          · rw [List.mem_filter]
            exact ⟨hobs, by simpa [bne_iff_ne] using hne⟩
          · rw [if_neg hne]; exact hcount
        · unfold saHandleEntry
          rw [if_neg hcond]
          exact ⟨hobs, hcount⟩
      exact ih (saHandleEntry s e) hQ.1 hQ.2 hmem'

/-- C9: starting from the initial observed card set, after any sequence of
intersection entries every element's entrance animation has been applied at
most once, any still-observed element has not been animated at all, and an
initially observed element that intersects at least once ends with its
animation applied exactly once and itself unobserved — so it never animates
again however often it re-enters — under the observer's configured 10%
threshold and −100px bottom root margin. -/
theorem scrollAnimations_one_shot (elems : List String)
    (entries : List (String × Bool)) (x : String) :
    (saRun (saInit elems) entries).count x ≤ 1 ∧
    (x ∈ (saRun (saInit elems) entries).observed →
      (saRun (saInit elems) entries).count x = 0) ∧
    (x ∈ elems → (x, true) ∈ entries →
      (saRun (saInit elems) entries).count x = 1 ∧
      (saRun (saInit elems) entries).animation x = some slideInUpAnimation ∧
      x ∉ (saRun (saInit elems) entries).observed) ∧
    observerThreshold = 1/10 ∧ observerRootMarginBottom = -100 := by
  have hinit : saInv (saInit elems) := by
    intro y
    exact ⟨fun _ => rfl, Nat.zero_le 1⟩
  have h := saRun_inv entries (saInit elems) hinit
  refine ⟨(h x).2, (h x).1, ?_, rfl, rfl⟩
  intro hx hmem
  exact saRun_applies x entries (saInit elems) hx rfl hmem

/-- C9 witness: one card intersecting twice is animated exactly once (with
the slideInUp style applied and the card unobserved afterwards), and a card
never delivered an entry stays observed with no animation applied. -/
theorem scrollAnimations_one_shot_witness :
    (saRun (saInit ["cardA"]) [("cardA", true), ("cardA", true)]).count "cardA" = 1 ∧
    (saRun (saInit ["cardA"]) [("cardA", true), ("cardA", true)]).animation "cardA" =
      some slideInUpAnimation ∧
    "cardA" ∉ (saRun (saInit ["cardA"]) [("cardA", true), ("cardA", true)]).observed ∧
    (saRun (saInit ["cardA"]) [("cardB", true)]).count "cardA" = 0 := by
  have h := (scrollAnimations_one_shot ["cardA"]
    [("cardA", true), ("cardA", true)] "cardA").2.2.1 (by decide) (by decide)
  refine ⟨h.1, h.2.1, h.2.2, ?_⟩
  refine (scrollAnimations_one_shot ["cardA"] [("cardB", true)] "cardA").2.1 ?_
  simp [saRun, saInit, saHandleEntry]

/-- C8: opening the modal with an identifier outside the three known project
ids writes no descriptor field — every display slot keeps its prior
content — yet the modal still becomes visible as a block-level overlay. -/
theorem openModal_unknown_id_stale (m : ModalState) (project : String)
    (h1 : project ≠ "project1") (h2 : project ≠ "project2")
    (h3 : project ≠ "project3") :
    openModal project m = { m with display := "block" } := by
  unfold openModal
  simp [h1, h2, h3]

/-- C8 witness: instantiated at the identifier `project9`. -/
theorem openModal_unknown_id_stale_witness :
    openModal "project9"
      { title := "t0", description := "d0", tech := "te0", features := "f0",
        github := "g0", display := "none" } =
      { title := "t0", description := "d0", tech := "te0", features := "f0",
        github := "g0", display := "block" } :=
  openModal_unknown_id_stale
    { title := "t0", description := "d0", tech := "te0", features := "f0",
      github := "g0", display := "none" } "project9"
    (by decide) (by decide) (by decide)

end Script
